import Mathlib

/-!
Verification development for the `video-cropper` repository
(`src/src-tauri/src/ffmpeg.rs`).

The Rust source is shallowly embedded: the supervised-process event loop of
`process_video` becomes a pure function over the list of command events the
event channel delivers; the filesystem, the application-directory resolver,
the hash of the `md5` crate and the external `ffmpeg`/`ffprobe` invocations
are explicit parameters (they are external collaborators of the code under
verification); `window.emit` calls become an emitted list of `(event, payload)`
pairs.  Machine integers that never overflow in the source (`u32` crop fields,
`u64` seconds) are `Nat`; the `i32` exit code is `Int`.  A `SystemTime` is
modelled in whole seconds relative to the Unix epoch as an `Int` (negative =
before the epoch), matching the only uses the source makes of it
(`duration_since(UNIX_EPOCH)` and `as_secs`).  A Rust panic (the `unwrap` on
`duration_since`) is the `panicked` outcome of `RustResult`.
-/

namespace VideoCropper

/-! ## Data structures (ffmpeg.rs lines 10-30) -/

/-- `ClipSelection { start: f64, end: f64 }`. -/
structure ClipSelection where
  start : Float
  «end» : Float

/-- `CropArea { x, y, width, height: u32 }`. -/
structure CropArea where
  x : Nat
  y : Nat
  width : Nat
  height : Nat

/-- `ExportArgs { input_path, output_path: String, selection, crop }`. -/
structure ExportArgs where
  input_path : String
  output_path : String
  selection : ClipSelection
  crop : CropArea

/-- `tauri::api::process::CommandEvent`: one event received from the spawned
command's channel.  `Terminated` carries the optional exit code of its
payload; the enum is non-exhaustive, `other` stands for any variant the
source's `_ => {}` arm ignores. -/
inductive CommandEvent where
  | stdout (line : String)
  | stderr (line : String)
  | terminated (code : Option Int)
  | error (err : String)
  | other
deriving DecidableEq

/-- One `window.emit(event, payload)` call. -/
structure Emit where
  event : String
  payload : String
deriving DecidableEq

/-- The event name is `"ffmpeg-progress"`. -/
def Emit.isProgress (e : Emit) : Bool :=
  e.event == "ffmpeg-progress"

/-- The event name is one of the two terminal ones,
`"ffmpeg-finished"` or `"ffmpeg-error"`. -/
def Emit.isTerminal (e : Emit) : Bool :=
  e.event == "ffmpeg-finished" || e.event == "ffmpeg-error"

/-! ## `process_video` (ffmpeg.rs lines 31-142) -/

/-- The `ffmpeg_args` vector built at lines 38-60: crop filter
`crop=width:height:x:y`, `-ss`/`-to` from the selection's `to_string()`,
audio copied, `-y` overwrite. -/
def ffmpegExportArgs (args : ExportArgs) : List String :=
  let crop_filter :=
    "crop=" ++ toString args.crop.width ++ ":" ++ toString args.crop.height
      ++ ":" ++ toString args.crop.x ++ ":" ++ toString args.crop.y
  let start_time_str := toString args.selection.start
  let end_time_str := toString args.selection.«end»
  ["-i", args.input_path, "-ss", start_time_str, "-to", end_time_str,
   "-filter:v", crop_filter, "-c:a", "copy", "-y", args.output_path]

/-- The `while let Some(event) = rx.recv().await` loop (lines 73-106), as a
function of the remaining events.  State: `last_progress_line`.  Returns the
stderr lines emitted as progress (in order) together with the final values of
the mutable `exit_code` and `command_error` variables.  `Stdout` lines are
ignored; a `Stderr` line is emitted iff `last_progress_line.as_ref() !=
Some(&line)`, and then becomes the new `last_progress_line`; `Terminated` and
`Error` break the loop. -/
def readLoop : Option String → List CommandEvent →
    List String × Option Int × Option String
  | _, [] => ([], none, none)
  | last_progress_line, e :: rest =>
    match e with
    | .stdout _ => readLoop last_progress_line rest
    | .stderr line =>
      if last_progress_line = some line then
        readLoop last_progress_line rest
      else
        let r := readLoop (some line) rest
        (line :: r.1, r.2)
    | .terminated code => ([], code, none)
    | .error err => ([], none, some err)
    | .other => readLoop last_progress_line rest

/-- The post-execution event handling (lines 110-138): emit exactly one of
`ffmpeg-error` (command error, formatted `Tauri Command Error: {err}`),
`ffmpeg-finished` (exit code 0), `ffmpeg-error` (non-zero code, formatted
`FFmpeg exited with error code: {code}`), or the fallback `ffmpeg-error`. -/
def terminalEmit (exit_code : Option Int) (command_error : Option String) : Emit :=
  match command_error with
  | some err => ⟨"ffmpeg-error", "Tauri Command Error: " ++ err⟩
  | none =>
    match exit_code with
    | some code =>
      if code = 0 then ⟨"ffmpeg-finished", "Successfully processed video"⟩
      else ⟨"ffmpeg-error", "FFmpeg exited with error code: " ++ toString code⟩
    | none => ⟨"ffmpeg-error", "FFmpeg process finished without explicit status code."⟩

/-- The whole monitoring task spawned at line 68: the read loop followed by
the post-execution handling; its observable behaviour is the ordered list of
`window.emit` calls. -/
def monitorTask (events : List CommandEvent) : List Emit :=
  let r := readLoop none events
  r.1.map (fun l => ⟨"ffmpeg-progress", l⟩) ++ [terminalEmit r.2.1 r.2.2]

/-- `process_video` (lines 31-142).  `spawnFn` is what `Command::new("ffmpeg")
.args(...).spawn()` returns for a given argument vector, with the error
already rendered by `.map_err(|e| e.to_string())`; `events` is the stream the
spawned channel delivers when the spawn succeeded.  Returns the synchronous
`Result<String, String>` together with the list of `window.emit` calls the
monitoring task performs. -/
def process_video (spawnFn : List String → Except String Unit)
    (args : ExportArgs) (events : List CommandEvent) :
    Except String String × List Emit :=
  match spawnFn (ffmpegExportArgs args) with
  | .error e => (.error e, [])
  | .ok _ => (.ok "Processing started", monitorTask events)

/-! ## Spec-side companion definitions for the supervisor

These follow the wording of the specification (deduplication rule, outcome
mapping) and are compared against the embedded loop above. -/

/-- The diagnostic-stream (stderr) lines the loop consumes: those occurring
before the first termination-relevant event (`Terminated` or `Error`). -/
def stderrBefore : List CommandEvent → List String
  | [] => []
  | .stdout _ :: rest => stderrBefore rest
  | .stderr l :: rest => l :: stderrBefore rest
  | .terminated _ :: _ => []
  | .error _ :: _ => []
  | .other :: rest => stderrBefore rest

/-- Spec deduplication rule: a line is surfaced iff it differs (string
inequality) from the immediately preceding surfaced line. -/
def dedupSurfaced : Option String → List String → List String
  | _, [] => []
  | last, l :: ls =>
    if last = some l then dedupSurfaced last ls
    else l :: dedupSurfaced (some l) ls

/-- The first termination-relevant event of the stream, if any: a
process-error signal, or a termination signal with its optional exit code. -/
inductive FirstSignal where
  | errored (msg : String)
  | term (code : Option Int)
  | noSignal
deriving DecidableEq

/-- Scan for the first termination-relevant event. -/
def firstSignal : List CommandEvent → FirstSignal
  | [] => .noSignal
  | .terminated code :: _ => .term code
  | .error err :: _ => .errored err
  | .stdout _ :: rest => firstSignal rest
  | .stderr _ :: rest => firstSignal rest
  | .other :: rest => firstSignal rest

/-- Spec outcome mapping: error-signal → failure carrying the message; exit
code 0 → success; non-zero exit code → failure carrying the code; no signal
observed (or a termination signal without a code) → defensive fallback
failure. -/
def terminalSpec : FirstSignal → Emit
  | .errored err => ⟨"ffmpeg-error", "Tauri Command Error: " ++ err⟩
  | .term (some code) =>
    if code = 0 then ⟨"ffmpeg-finished", "Successfully processed video"⟩
    else ⟨"ffmpeg-error", "FFmpeg exited with error code: " ++ toString code⟩
  | .term none => ⟨"ffmpeg-error", "FFmpeg process finished without explicit status code."⟩
  | .noSignal => ⟨"ffmpeg-error", "FFmpeg process finished without explicit status code."⟩

/-- The source's `_line` stdout arm ignores primary-stream lines; this
recognizer lets us state that they are irrelevant to the loop. -/
def CommandEvent.isStdout : CommandEvent → Bool
  | .stdout _ => true
  | _ => false

/-! ## `generate_video_proxy` and `get_video_codec` environments -/

/-- Result of a Rust function that can also panic (the source unwraps a
fallible call). -/
inductive RustResult (α : Type) (ε : Type) where
  | ok (a : α)
  | err (e : ε)
  | panicked
deriving DecidableEq

/-- The one field of `std::fs::Metadata` the source reads:
`metadata.modified()`, a fallible `SystemTime`, modelled in whole seconds
relative to the Unix epoch (negative = before the epoch). -/
structure SysMetadata where
  modified : Except String Int

/-- `std::process::Output`: exit status (as `success()` and `code()`) plus
captured stdout/stderr already decoded by `String::from_utf8_lossy`. -/
structure ProcOutput where
  success : Bool
  code : Option Int
  stdout : String
  stderr : String
deriving DecidableEq

/-- The side-effecting operations `generate_video_proxy` can perform, in
order: `fs::create_dir_all`, `fs::metadata`, and spawning the external
tool. -/
inductive Effect where
  | createDirAll (dir : String)
  | readMetadata (path : String)
  | spawn (exe : String) (args : List String)
deriving DecidableEq

/-- Whether an effect is an external-process invocation. -/
def Effect.isSpawn : Effect → Bool
  | .spawn _ _ => true
  | _ => false

/-- Number of external-process invocations in an effect trace. -/
def spawnCount (effs : List Effect) : Nat :=
  (effs.filter Effect.isSpawn).length

/-- The filesystem as the source observes it: `Path::exists` and
`fs::metadata`. -/
structure FsState where
  pathExists : String → Bool
  metadata : String → Except String SysMetadata

/-- External collaborators of `generate_video_proxy`:
`app_handle.path_resolver().app_local_data_dir()`, `fs::create_dir_all`,
the `md5` crate's digest rendered with `format!("{:x}", _)`, and the
behaviour of `tokio::process::Command::new("ffmpeg")...output()` — given the
argument vector and the filesystem at spawn time it yields either a spawn
error (already `to_string`ed) or a `ProcOutput`, together with the
filesystem state after the process exited. -/
structure AppEnv where
  app_local_data_dir : Option String
  create_dir_all : String → Except String Unit
  md5_hex : String → String
  run_ffmpeg : List String → FsState → Except String ProcOutput × FsState

/-- `format!("{:?}", _)` on an `Option<i32>`. -/
def debugOptionInt : Option Int → String
  | none => "None"
  | some c => "Some(" ++ toString c ++ ")"

/-- The cache filename `format!("{}_{}.mp4", input_hash, modified_secs)`
(ffmpeg.rs line 175). -/
def proxyFilename (input_hash : String) (modified_secs : Nat) : String :=
  input_hash ++ "_" ++ toString modified_secs ++ ".mp4"

/-- The transcode argument vector (ffmpeg.rs lines 186-201). -/
def proxyFfmpegArgs (input_path output_path : String) : List String :=
  ["-hwaccel", "videotoolbox", "-i", input_path, "-c:v", "h264_videotoolbox",
   "-b:v", "2M", "-vf", "scale=-2:720", "-c:a", "aac", "-y", output_path]

/-- The error message of the non-zero-exit branch (ffmpeg.rs lines 242-247). -/
def transcodeFailedMsg (out : ProcOutput) : String :=
  "FFmpeg failed (code: " ++ debugOptionInt out.code ++ ")\nStderr: "
    ++ out.stderr ++ "\nStdout: " ++ out.stdout

/-- The cache-hit check and cache-miss build of `generate_video_proxy`
(ffmpeg.rs lines 177-255): return the derived path immediately if a file
already exists there, otherwise run the external tool synchronously, map a
spawn failure / non-zero exit / missing output to the corresponding error,
and return the derived path on success. -/
def proxyCheckAndBuild (env : AppEnv) (input_path cache_dir output_path : String)
    (fs : FsState) : RustResult String String × FsState × List Effect :=
  if fs.pathExists output_path then
    (.ok output_path, fs, [.createDirAll cache_dir, .readMetadata input_path])
  else
    match env.run_ffmpeg (proxyFfmpegArgs input_path output_path) fs with
    | (.error e, fs') =>
      (.err ("Failed to execute FFmpeg: " ++ e
          ++ ". Is FFmpeg installed and in PATH?"), fs',
       [.createDirAll cache_dir, .readMetadata input_path,
        .spawn "ffmpeg" (proxyFfmpegArgs input_path output_path)])
    | (.ok out, fs') =>
      if out.success = false then
        (.err (transcodeFailedMsg out), fs',
         [.createDirAll cache_dir, .readMetadata input_path,
          .spawn "ffmpeg" (proxyFfmpegArgs input_path output_path)])
      else if fs'.pathExists output_path = false then
        (.err "FFmpeg reported success but output file not found", fs',
         [.createDirAll cache_dir, .readMetadata input_path,
          .spawn "ffmpeg" (proxyFfmpegArgs input_path output_path)])
      else
        (.ok output_path, fs',
         [.createDirAll cache_dir, .readMetadata input_path,
          .spawn "ffmpeg" (proxyFfmpegArgs input_path output_path)])

/-- `generate_video_proxy` (ffmpeg.rs lines 144-256).  Returns the
`Result<String, String>` (or a panic, from the `unwrap` on
`duration_since(UNIX_EPOCH)` at lines 170-173), the filesystem state after
the call, and the trace of side effects performed. -/
def generate_video_proxy (env : AppEnv) (input_path : String) (fs : FsState) :
    RustResult String String × FsState × List Effect :=
  if fs.pathExists input_path = false then
    (.err ("Input file not found: " ++ input_path), fs, [])
  else
    match env.app_local_data_dir with
    | none => (.err "Failed to get app directory", fs, [])
    | some dataDir =>
      let cache_dir := dataDir ++ "/video_previews"
      match env.create_dir_all cache_dir with
      | .error e => (.err ("Cannot create cache dir: " ++ e), fs, [.createDirAll cache_dir])
      | .ok _ =>
        match fs.metadata input_path with
        | .error e =>
          (.err ("Cannot read file metadata: " ++ e), fs,
           [.createDirAll cache_dir, .readMetadata input_path])
        | .ok md =>
          match md.modified with
          | .error e =>
            (.err e, fs, [.createDirAll cache_dir, .readMetadata input_path])
          | .ok modified =>
            if modified < 0 then
              (.panicked, fs, [.createDirAll cache_dir, .readMetadata input_path])
            else
              proxyCheckAndBuild env input_path cache_dir
                (cache_dir ++ "/" ++ proxyFilename (env.md5_hex input_path) modified.toNat)
                fs

/-- Rust's `str::trim`: drop whitespace from both ends.  (Defined over the
character list so that it evaluates by `rfl`; Lean's built-in `String.trim`
is defined by well-founded recursion over byte positions and does not.) -/
def rustTrim (s : String) : String :=
  ((s.data.dropWhile Char.isWhitespace).reverse.dropWhile
    Char.isWhitespace).reverse.asString

/-- The `ffprobe` argument vector (ffmpeg.rs lines 261-271). -/
def ffprobeArgs (input_path : String) : List String :=
  ["-v", "error", "-select_streams", "v:0", "-show_entries", "stream=codec_name",
   "-of", "default=noprint_wrappers=1:nokey=1", input_path]

/-- `get_video_codec` (ffmpeg.rs lines 258-279).  `run_ffprobe` is the
behaviour of `tokio::process::Command::new("ffprobe")...output()`, its spawn
error already `to_string`ed.  Note the source never inspects
`output.status`: it returns the trimmed stdout unconditionally on a
successful spawn. -/
def get_video_codec (run_ffprobe : List String → Except String ProcOutput)
    (input_path : String) : Except String String :=
  match run_ffprobe (ffprobeArgs input_path) with
  | .error e => .error e
  | .ok output => .ok (rustTrim output.stdout)

/-! ## Decimal rendering of naturals

`format!` on a `u64` prints the usual decimal digits, exactly what Lean's
`toString`/`Nat.repr` produces.  To reason about distinctness of cache
filenames we relate `Nat.repr` to a structural digit list and prove it
injective. -/

/-- Big-endian decimal digit characters of a natural number. -/
def decDigits (n : Nat) : List Char :=
  if n < 10 then [Nat.digitChar n]
  else decDigits (n / 10) ++ [Nat.digitChar (n % 10)]
decreasing_by
  exact Nat.div_lt_self (by omega) (by omega)

/-- Evaluate a decimal digit-character list, most significant first, on top
of an accumulator. -/
def decValAux (a : Nat) (l : List Char) : Nat :=
  l.foldl (fun acc c => 10 * acc + (c.toNat - 48)) a

/-! ## Concrete fixtures used by witnesses -/

/-- A concrete export request. -/
def argsW : ExportArgs :=
  ⟨"in.mp4", "out.mp4", ⟨0.0, 1.0⟩, ⟨0, 0, 100, 100⟩⟩

/-- A spawn that always succeeds. -/
def spawnOkFn : List String → Except String Unit := fun _ => .ok ()

/-- A spawn that always fails. -/
def spawnErrFn : List String → Except String Unit := fun _ => .error "spawn failed"

/-- A filesystem holding `in.mp4` (mtime 5 s) and the derived cache file. -/
def fsHit : FsState :=
  ⟨fun p => p == "in.mp4" || p == "app/video_previews/abcd_5.mp4",
   fun p => if p == "in.mp4" then .ok ⟨.ok 5⟩ else .error "no metadata"⟩

/-- A filesystem holding only `in.mp4` (mtime 5 s). -/
def fsIn : FsState :=
  ⟨fun p => p == "in.mp4",
   fun p => if p == "in.mp4" then .ok ⟨.ok 5⟩ else .error "no metadata"⟩

/-- A filesystem holding only `in.mp4`, with an mtime one second before the
Unix epoch. -/
def fsNegMtime : FsState :=
  ⟨fun p => p == "in.mp4",
   fun p => if p == "in.mp4" then .ok ⟨.ok (-1)⟩ else .error "no metadata"⟩

/-- A filesystem where every path exists but metadata reads fail. -/
def fsMetaErr : FsState :=
  ⟨fun _ => true, fun _ => .error "io error"⟩

/-- A filesystem holding only `in.mp4`, whose `modified()` call fails. -/
def fsModErr : FsState :=
  ⟨fun p => p == "in.mp4",
   fun p => if p == "in.mp4" then .ok ⟨.error "clock error"⟩ else .error "no metadata"⟩

/-- An empty filesystem. -/
def fsEmpty : FsState :=
  ⟨fun _ => false, fun _ => .error "no metadata"⟩

/-- An environment whose external tool is never reached. -/
def envW : AppEnv :=
  ⟨some "app", fun _ => .ok (), fun _ => "abcd",
   fun _ fs => (.error "not invoked", fs)⟩

/-- An environment whose external tool reports success without writing any
file. -/
def envNoOutput : AppEnv :=
  ⟨some "app", fun _ => .ok (), fun _ => "abcd",
   fun _ fs => (.ok ⟨true, some 0, "", ""⟩, fs)⟩

/-! # Theorems -/

/-! ## Supervisor helper lemmas -/

theorem terminalEmit_isTerminal (ec : Option Int) (ce : Option String) :
    (terminalEmit ec ce).isTerminal = true := by
  cases ce with
  | some err => rfl
  | none =>
    cases ec with
    | none => rfl
    | some code =>
      by_cases h : code = 0
      · simp [terminalEmit, h, Emit.isTerminal]
      · simp [terminalEmit, h, Emit.isTerminal]

theorem terminalEmit_not_progress (ec : Option Int) (ce : Option String) :
    (terminalEmit ec ce).isProgress = false := by
  cases ce with
  | some err => rfl
  | none =>
    cases ec with
    | none => rfl
    | some code =>
      by_cases h : code = 0
      · simp [terminalEmit, h, Emit.isProgress]
      · simp [terminalEmit, h, Emit.isProgress]

theorem progressEmit_not_terminal (l : String) :
    (Emit.mk "ffmpeg-progress" l).isTerminal = false := rfl

theorem progressEmit_isProgress (l : String) :
    (Emit.mk "ffmpeg-progress" l).isProgress = true := rfl

theorem terminalSpec_isTerminal (s : FirstSignal) :
    (terminalSpec s).isTerminal = true := by
  cases s with
  | errored msg => rfl
  | noSignal => rfl
  | term code =>
    cases code with
    | none => rfl
    | some c =>
      by_cases h : c = 0
      · simp [terminalSpec, h, Emit.isTerminal]
      · simp [terminalSpec, h, Emit.isTerminal]

theorem isStdout_stdout (l : String) : (CommandEvent.stdout l).isStdout = true := rfl

theorem isStdout_stderr (l : String) : (CommandEvent.stderr l).isStdout = false := rfl

theorem isStdout_terminated (c : Option Int) :
    (CommandEvent.terminated c).isStdout = false := rfl

theorem isStdout_error (e : String) : (CommandEvent.error e).isStdout = false := rfl

theorem isStdout_other : CommandEvent.other.isStdout = false := rfl

theorem readLoop_stdout (last : Option String) (l : String) (rest : List CommandEvent) :
    readLoop last (.stdout l :: rest) = readLoop last rest := rfl

theorem readLoop_other (last : Option String) (rest : List CommandEvent) :
    readLoop last (.other :: rest) = readLoop last rest := rfl

theorem readLoop_stderr_dup (last : Option String) (l : String)
    (rest : List CommandEvent) (h : last = some l) :
    readLoop last (.stderr l :: rest) = readLoop last rest := by
  simp [readLoop, h]

theorem readLoop_stderr_new (last : Option String) (l : String)
    (rest : List CommandEvent) (h : ¬ last = some l) :
    readLoop last (.stderr l :: rest)
      = (l :: (readLoop (some l) rest).1, (readLoop (some l) rest).2) := by
  simp [readLoop, h]

theorem filter_isTerminal_progress_map (lines : List String) :
    ((lines.map fun l => Emit.mk "ffmpeg-progress" l).filter Emit.isTerminal) = [] := by
  induction lines with
  | nil => rfl
  | cons l ls ih =>
    simp [List.filter_cons, progressEmit_not_terminal, ih]

theorem filter_isProgress_progress_map (lines : List String) :
    ((lines.map fun l => Emit.mk "ffmpeg-progress" l).filter Emit.isProgress)
      = lines.map fun l => Emit.mk "ffmpeg-progress" l := by
  induction lines with
  | nil => rfl
  | cons l ls ih =>
    simp [List.filter_cons, progressEmit_isProgress, ih]

theorem readLoop_lines_eq_dedup (last : Option String) (events : List CommandEvent) :
    (readLoop last events).1 = dedupSurfaced last (stderrBefore events) := by
  induction events generalizing last with
  | nil => rfl
  | cons e rest ih =>
    cases e with
    | stdout l => simpa [readLoop, stderrBefore] using ih last
    | stderr l =>
      by_cases h : last = some l
      · simp [readLoop, stderrBefore, dedupSurfaced, h, ih]
      · simp [readLoop, stderrBefore, dedupSurfaced, h, ih]
    | terminated code => rfl
    | error err => rfl
    | other => simpa [readLoop, stderrBefore] using ih last

theorem readLoop_filter_stdout (last : Option String) (events : List CommandEvent) :
    readLoop last (events.filter fun e => !e.isStdout) = readLoop last events := by
  induction events generalizing last with
  | nil => rfl
  | cons e rest ih =>
    cases e with
    | stdout l =>
      rw [List.filter_cons]
      simp only [isStdout_stdout, Bool.not_true, Bool.false_eq_true, if_false]
      rw [ih, readLoop_stdout]
    | stderr l =>
      rw [List.filter_cons]
      simp only [isStdout_stderr, Bool.not_false, if_true]
      by_cases h : last = some l
      · rw [readLoop_stderr_dup last l _ h, readLoop_stderr_dup last l rest h, ih]
      · rw [readLoop_stderr_new last l _ h, readLoop_stderr_new last l rest h, ih]
    | terminated code =>
      rw [List.filter_cons]
      simp only [isStdout_terminated, Bool.not_false, if_true]
      rfl
    | error err =>
      rw [List.filter_cons]
      simp only [isStdout_error, Bool.not_false, if_true]
      rfl
    | other =>
      rw [List.filter_cons]
      simp only [isStdout_other, Bool.not_false, if_true]
      rw [readLoop_other, readLoop_other, ih]

theorem readLoop_break_terminal (last : Option String) (events : List CommandEvent) :
    terminalEmit (readLoop last events).2.1 (readLoop last events).2.2
      = terminalSpec (firstSignal events) := by
  induction events generalizing last with
  | nil => rfl
  | cons e rest ih =>
    cases e with
    | stdout l => simpa [readLoop, firstSignal] using ih last
    | stderr l =>
      by_cases h : last = some l
      · simpa [readLoop, firstSignal, h] using ih last
      · simpa [readLoop, firstSignal, h] using ih (some l)
    | terminated code => cases code <;> rfl
    | error err => rfl
    | other => simpa [readLoop, firstSignal] using ih last

/-! ## Claim theorems for the Clip Exporter / Process Supervisor -/

/-- C1: for every `process_video` invocation whose spawn succeeds, the
sequence of notifications emitted to the caller's window is zero or more
progress events followed by exactly one terminal notification
(`ffmpeg-finished` or `ffmpeg-error`); no terminal notification is emitted
twice and no progress notification follows the terminal one. -/
theorem process_video_progress_then_single_terminal
    (spawnFn : List String → Except String Unit) (args : ExportArgs)
    (events : List CommandEvent)
    (h : spawnFn (ffmpegExportArgs args) = .ok ()) :
    (process_video spawnFn args events).2
      = ((readLoop none events).1.map fun l => Emit.mk "ffmpeg-progress" l)
        ++ [terminalEmit (readLoop none events).2.1 (readLoop none events).2.2]
    ∧ (terminalEmit (readLoop none events).2.1 (readLoop none events).2.2).isTerminal = true
    ∧ (process_video spawnFn args events).2.filter Emit.isTerminal
        = [terminalEmit (readLoop none events).2.1 (readLoop none events).2.2] := by
  have hp : process_video spawnFn args events
      = (.ok "Processing started", monitorTask events) := by
    unfold process_video; rw [h]
  refine ⟨?_, terminalEmit_isTerminal _ _, ?_⟩
  · rw [hp]; rfl
  · rw [hp]
    show (monitorTask events).filter Emit.isTerminal = _
    simp only [monitorTask]
    rw [List.filter_append, filter_isTerminal_progress_map, List.nil_append,
      List.filter_cons]
    simp [terminalEmit_isTerminal]

/-- C1 witness: a concrete successful invocation observing one progress line
and a clean exit. -/
theorem process_video_progress_then_single_terminal_witness :
    spawnOkFn (ffmpegExportArgs argsW) = .ok ()
    ∧ ((process_video spawnOkFn argsW [.stderr "a", .terminated (some 0)]).2
        = ((readLoop none [.stderr "a", .terminated (some 0)]).1.map
            fun l => Emit.mk "ffmpeg-progress" l)
          ++ [terminalEmit (readLoop none [.stderr "a", .terminated (some 0)]).2.1
                (readLoop none [.stderr "a", .terminated (some 0)]).2.2]
      ∧ (terminalEmit (readLoop none [.stderr "a", .terminated (some 0)]).2.1
          (readLoop none [.stderr "a", .terminated (some 0)]).2.2).isTerminal = true
      ∧ (process_video spawnOkFn argsW [.stderr "a", .terminated (some 0)]).2.filter
            Emit.isTerminal
          = [terminalEmit (readLoop none [.stderr "a", .terminated (some 0)]).2.1
              (readLoop none [.stderr "a", .terminated (some 0)]).2.2]) :=
  ⟨rfl, process_video_progress_then_single_terminal spawnOkFn argsW
    [.stderr "a", .terminated (some 0)] rfl⟩

/-- C2: a diagnostic (stderr) line is surfaced as a progress event iff it
differs from the immediately preceding surfaced line; the stderr input
`["a","a","b","b","b","c"]` yields exactly `["a","b","c"]`; stdout lines are
never surfaced (removing them changes nothing). -/
theorem stderr_dedup_characterization (events : List CommandEvent) :
    ((monitorTask events).filter Emit.isProgress).map Emit.payload
      = dedupSurfaced none (stderrBefore events)
  ∧ dedupSurfaced none ["a", "a", "b", "b", "b", "c"] = ["a", "b", "c"]
  ∧ ((monitorTask (["a", "a", "b", "b", "b", "c"].map CommandEvent.stderr)).filter
        Emit.isProgress).map Emit.payload = ["a", "b", "c"]
  ∧ monitorTask (events.filter fun e => !e.isStdout) = monitorTask events := by
  have key : ∀ evs : List CommandEvent,
      ((monitorTask evs).filter Emit.isProgress).map Emit.payload
        = dedupSurfaced none (stderrBefore evs) := by
    intro evs
    simp only [monitorTask]
    rw [List.filter_append, filter_isProgress_progress_map, List.filter_cons]
    simp only [terminalEmit_not_progress, Bool.false_eq_true, if_false,
      List.filter_nil, List.append_nil, List.map_map]
    rw [← readLoop_lines_eq_dedup]
    simp [Function.comp_def]
  refine ⟨key events, rfl, ?_, ?_⟩
  · rw [key]; rfl
  · simp only [monitorTask, readLoop_filter_stdout]

/-- C3: the terminal notification is determined by the first
termination-relevant event: a process-error event yields the failure
notification carrying the error message; exit code 0 yields the success
notification; a non-zero exit code yields the failure notification carrying
that code; loop exit with neither signal yields the defensive fallback
failure (see `terminalSpec`). -/
theorem monitorTask_terminal_by_first_signal (events : List CommandEvent) :
    (monitorTask events).getLast? = some (terminalSpec (firstSignal events)) := by
  simp only [monitorTask]
  rw [List.getLast?_concat, readLoop_break_terminal]

/-- C9: a failed spawn is returned synchronously as the error string with no
notification emitted; a successful spawn immediately returns the
`"Processing started"` acknowledgment regardless of what the process later
does, and every post-spawn outcome is reported through the single terminal
notification. -/
theorem process_video_error_policy
    (spawnFn : List String → Except String Unit) (args : ExportArgs)
    (events : List CommandEvent) (e : String) :
    (spawnFn (ffmpegExportArgs args) = .error e →
      process_video spawnFn args events = (.error e, []))
  ∧ (spawnFn (ffmpegExportArgs args) = .ok () →
      (process_video spawnFn args events).1 = .ok "Processing started"
      ∧ (process_video spawnFn args events).2.getLast?
          = some (terminalSpec (firstSignal events))
      ∧ (terminalSpec (firstSignal events)).isTerminal = true) := by
  constructor
  · intro h; unfold process_video; rw [h]
  · intro h
    have hp : process_video spawnFn args events
        = (.ok "Processing started", monitorTask events) := by
      unfold process_video; rw [h]
    refine ⟨by rw [hp], ?_, terminalSpec_isTerminal _⟩
    rw [hp]
    show (monitorTask events).getLast? = _
    simp only [monitorTask]
    rw [List.getLast?_concat, readLoop_break_terminal]

/-- C9 witness: a concrete failed spawn and a concrete successful spawn with
a non-zero exit. -/
theorem process_video_error_policy_witness :
    (spawnErrFn (ffmpegExportArgs argsW) = .error "spawn failed"
      ∧ process_video spawnErrFn argsW [.terminated (some 1)]
          = (.error "spawn failed", []))
  ∧ (spawnOkFn (ffmpegExportArgs argsW) = .ok ()
      ∧ ((process_video spawnOkFn argsW [.terminated (some 1)]).1
            = .ok "Processing started"
        ∧ (process_video spawnOkFn argsW [.terminated (some 1)]).2.getLast?
            = some (terminalSpec (firstSignal [.terminated (some 1)]))
        ∧ (terminalSpec (firstSignal [.terminated (some 1)])).isTerminal = true)) :=
  ⟨⟨rfl, (process_video_error_policy spawnErrFn argsW
      [.terminated (some 1)] "spawn failed").1 rfl⟩,
   ⟨rfl, (process_video_error_policy spawnOkFn argsW
      [.terminated (some 1)] "spawn failed").2 rfl⟩⟩

/-! ## Decimal representation lemmas -/

theorem decDigits_eq_toDigitsCore (n : Nat) : ∀ (f : Nat) (l : List Char), n < f →
    Nat.toDigitsCore 10 f n l = decDigits n ++ l := by
  induction n using Nat.strong_induction_on with
  | _ n ih =>
    intro f l hf
    cases f with
    | zero => exact absurd hf (Nat.not_lt_zero n)
    | succ f =>
      by_cases h : n < 10
      · have h0 : n / 10 = 0 := by omega
        rw [show Nat.toDigitsCore 10 (f + 1) n l
            = if n / 10 = 0 then Nat.digitChar (n % 10) :: l
              else Nat.toDigitsCore 10 f (n / 10) (Nat.digitChar (n % 10) :: l) from rfl]
        rw [if_pos h0, decDigits, if_pos h, Nat.mod_eq_of_lt h, List.singleton_append]
      · have h0 : ¬ n / 10 = 0 := by omega
        rw [show Nat.toDigitsCore 10 (f + 1) n l
            = if n / 10 = 0 then Nat.digitChar (n % 10) :: l
              else Nat.toDigitsCore 10 f (n / 10) (Nat.digitChar (n % 10) :: l) from rfl]
        rw [if_neg h0, ih (n / 10) (by omega) f _ (by omega)]
        conv_rhs => rw [decDigits]
        rw [if_neg h, List.append_assoc, List.singleton_append]

theorem natRepr_eq_decDigits (n : Nat) : Nat.repr n = (decDigits n).asString := by
  unfold Nat.repr Nat.toDigits
  rw [decDigits_eq_toDigitsCore n (n + 1) [] (Nat.lt_succ_self n), List.append_nil]

theorem digitChar_toNat (d : Nat) (h : d < 10) : (Nat.digitChar d).toNat - 48 = d := by
  interval_cases d <;> decide

theorem decValAux_append (a : Nat) (l1 l2 : List Char) :
    decValAux a (l1 ++ l2) = decValAux (decValAux a l1) l2 := by
  simp [decValAux, List.foldl_append]

theorem decValAux_decDigits (n : Nat) : ∀ a : Nat,
    decValAux a (decDigits n) = a * 10 ^ (decDigits n).length + n := by
  induction n using Nat.strong_induction_on with
  | _ n ih =>
    intro a
    by_cases h : n < 10
    · rw [decDigits, if_pos h]
      simp only [decValAux, List.foldl_cons, List.foldl_nil, digitChar_toNat n h,
        List.length_singleton, pow_one]
      omega
    · conv_lhs => rw [decDigits, if_neg h]
      conv_rhs => rw [decDigits, if_neg h]
      rw [decValAux_append, ih (n / 10) (by omega) a]
      simp only [decValAux, List.foldl_cons, List.foldl_nil,
        digitChar_toNat (n % 10) (by omega), List.length_append,
        List.length_singleton]
      rw [pow_succ, Nat.mul_add, Nat.add_assoc, Nat.div_add_mod]
      ring

theorem decDigits_inj (m n : Nat) (h : decDigits m = decDigits n) : m = n := by
  have hm := decValAux_decDigits m 0
  have hn := decValAux_decDigits n 0
  rw [h] at hm
  simp only [Nat.zero_mul, Nat.zero_add] at hm hn
  omega

theorem natRepr_inj (m n : Nat) (h : Nat.repr m = Nat.repr n) : m = n := by
  rw [natRepr_eq_decDigits, natRepr_eq_decDigits] at h
  exact decDigits_inj m n (List.asString_inj.mp h)

theorem proxyFilename_mtime_inj (hsh : String) (s t : Nat)
    (h : proxyFilename hsh s = proxyFilename hsh t) : s = t := by
  unfold proxyFilename at h
  have h' := congrArg String.data h
  simp only [String.data_append] at h'
  rw [List.append_assoc (hsh.data ++ "_".data),
    List.append_assoc (hsh.data ++ "_".data)] at h'
  have h'' := List.append_cancel_left h'
  have h3 : (toString s).data = (toString t).data := List.append_cancel_right h''
  exact natRepr_inj s t (String.ext h3)

/-! ## Claim theorems for the Codec Inspector -/

/-- C4 counterexample: a probe tool that runs but exits non-zero (code 1,
diagnostics on its stderr, empty stdout) does not yield an error string:
`get_video_codec` returns `Ok ""`, because the source never inspects the
probe's exit status. -/
theorem get_video_codec_nonzero_exit_counterexample :
    get_video_codec (fun _ => .ok ⟨false, some 1, "", "ffprobe: could not open file"⟩)
        "in.mp4"
      = .ok "" := rfl

/-- C4 amended: a failure to spawn the probe is returned as the error
string; the probe's exit status is never inspected, so on any successful
spawn — whatever the exit code — the trimmed stdout is returned as success,
empty or malformed output being passed through as-is. -/
theorem get_video_codec_error_policy_amended
    (run : List String → Except String ProcOutput) (p e : String)
    (out : ProcOutput) :
    (run (ffprobeArgs p) = .error e → get_video_codec run p = .error e)
  ∧ (run (ffprobeArgs p) = .ok out →
      get_video_codec run p = .ok (rustTrim out.stdout)) := by
  constructor <;> intro h <;> unfold get_video_codec <;> rw [h]

/-- C4 amended witness: a failing spawn, and a probe exiting non-zero while
printing `"h264\n"`, which is returned trimmed to `"h264"`. -/
theorem get_video_codec_error_policy_amended_witness :
    ((fun _ => Except.error "No such file or directory"
        : List String → Except String ProcOutput) (ffprobeArgs "v.mp4")
        = .error "No such file or directory"
      ∧ get_video_codec (fun _ => .error "No such file or directory") "v.mp4"
          = .error "No such file or directory")
  ∧ ((fun _ => Except.ok ⟨false, some 1, "h264\n", "diag"⟩
        : List String → Except String ProcOutput) (ffprobeArgs "v.mp4")
        = .ok ⟨false, some 1, "h264\n", "diag"⟩
      ∧ get_video_codec (fun _ => .ok ⟨false, some 1, "h264\n", "diag"⟩) "v.mp4"
          = .ok (rustTrim (ProcOutput.mk false (some 1) "h264\n" "diag").stdout)
      ∧ rustTrim (ProcOutput.mk false (some 1) "h264\n" "diag").stdout = "h264") :=
  ⟨⟨rfl, (get_video_codec_error_policy_amended
      (fun _ => .error "No such file or directory") "v.mp4"
      "No such file or directory" ⟨false, some 1, "h264\n", "diag"⟩).1 rfl⟩,
   ⟨rfl, (get_video_codec_error_policy_amended
      (fun _ => .ok ⟨false, some 1, "h264\n", "diag"⟩) "v.mp4"
      "unused" ⟨false, some 1, "h264\n", "diag"⟩).2 rfl, rfl⟩⟩

/-! ## Claim theorems for the Proxy Generator -/

/-- C5: calling the Proxy Generator with an input path that does not exist
fails synchronously with the input-not-found error; the effect trace is
empty (no cache-directory work, no metadata read, no spawn), the filesystem
is untouched, and — the environment being universally quantified — the
result does not depend on the cache-key hash or any other collaborator. -/
theorem generate_video_proxy_missing_input (env : AppEnv) (input_path : String)
    (fs : FsState) (h : fs.pathExists input_path = false) :
    generate_video_proxy env input_path fs
      = (.err ("Input file not found: " ++ input_path), fs, []) := by
  simp [generate_video_proxy, h]

/-- C5 witness: the empty filesystem. -/
theorem generate_video_proxy_missing_input_witness :
    fsEmpty.pathExists "missing.mp4" = false
    ∧ generate_video_proxy envW "missing.mp4" fsEmpty
        = (.err ("Input file not found: " ++ "missing.mp4"), fsEmpty, []) :=
  ⟨rfl, generate_video_proxy_missing_input envW "missing.mp4" fsEmpty rfl⟩

/-! ## Proxy Generator helper lemmas -/

theorem spawnCount_hit_effects (cd ip : String) :
    spawnCount [.createDirAll cd, .readMetadata ip] = 0 := rfl

theorem spawnCount_build_effects (cd ip : String) (args : List String) :
    spawnCount [.createDirAll cd, .readMetadata ip, .spawn "ffmpeg" args] = 1 := rfl

theorem proxyCheckAndBuild_hit (env : AppEnv)
    (input_path cache_dir output_path : String) (fs : FsState)
    (hhit : fs.pathExists output_path = true) :
    proxyCheckAndBuild env input_path cache_dir output_path fs
      = (.ok output_path, fs,
         [.createDirAll cache_dir, .readMetadata input_path]) := by
  unfold proxyCheckAndBuild
  rw [if_pos hhit]

theorem proxyCheckAndBuild_fst_ne_panicked (env : AppEnv)
    (input_path cache_dir output_path : String) (fs : FsState) :
    (proxyCheckAndBuild env input_path cache_dir output_path fs).1
      ≠ RustResult.panicked := by
  unfold proxyCheckAndBuild
  split
  · simp
  · split
    · simp
    · split
      · simp
      · split
        · simp
        · simp

theorem proxyCheckAndBuild_ok_inv (env : AppEnv)
    (input_path cache_dir output_path : String) (fs : FsState)
    (p : String) (fs' : FsState) (effs : List Effect)
    (h : proxyCheckAndBuild env input_path cache_dir output_path fs
          = (.ok p, fs', effs)) :
    p = output_path ∧ fs'.pathExists output_path = true ∧ spawnCount effs ≤ 1 := by
  unfold proxyCheckAndBuild at h
  split at h
  · next hhit =>
      simp only [Prod.mk.injEq, RustResult.ok.injEq] at h
      obtain ⟨hp, hfs, heffs⟩ := h
      subst hp; subst hfs; subst heffs
      exact ⟨rfl, hhit, by rw [spawnCount_hit_effects]; omega⟩
  · next hhit =>
      split at h
      · next e fsA heq => simp at h
      · next out fsA heq =>
          split at h
          · simp at h
          · next hsucc =>
              split at h
              · simp at h
              · next hpost =>
                  simp only [Prod.mk.injEq, RustResult.ok.injEq] at h
                  obtain ⟨hp, hfs, heffs⟩ := h
                  subst hp; subst hfs; subst heffs
                  refine ⟨rfl, ?_, by rw [spawnCount_build_effects]⟩
                  revert hpost
                  cases fsA.pathExists output_path <;> simp

theorem generate_video_proxy_reached (env : AppEnv) (input_path d : String)
    (fs : FsState) (md : SysMetadata) (m : Int)
    (h1 : fs.pathExists input_path = true)
    (hd : env.app_local_data_dir = some d)
    (hc : env.create_dir_all (d ++ "/video_previews") = .ok ())
    (hmd : fs.metadata input_path = .ok md)
    (hm : md.modified = .ok m)
    (hnn : 0 ≤ m) :
    generate_video_proxy env input_path fs
      = proxyCheckAndBuild env input_path (d ++ "/video_previews")
          (d ++ "/video_previews" ++ "/"
            ++ proxyFilename (env.md5_hex input_path) m.toNat) fs := by
  have hnlt : ¬ m < 0 := by omega
  simp only [generate_video_proxy, h1, hd, hc, hmd, hm, Bool.true_eq_false,
    if_false, if_neg hnlt]

theorem generate_video_proxy_ok_inv (env : AppEnv) (input_path : String)
    (fs : FsState) (p : String) (fs' : FsState) (effs : List Effect)
    (h : generate_video_proxy env input_path fs = (.ok p, fs', effs)) :
    ∃ d md m, env.app_local_data_dir = some d
      ∧ env.create_dir_all (d ++ "/video_previews") = .ok ()
      ∧ fs.pathExists input_path = true
      ∧ fs.metadata input_path = .ok md
      ∧ md.modified = .ok m
      ∧ 0 ≤ m
      ∧ p = d ++ "/video_previews" ++ "/"
          ++ proxyFilename (env.md5_hex input_path) m.toNat
      ∧ fs'.pathExists p = true
      ∧ spawnCount effs ≤ 1 := by
  by_cases h1 : fs.pathExists input_path = false
  · simp [generate_video_proxy, h1] at h
  · have h1' : fs.pathExists input_path = true := by
      revert h1; cases fs.pathExists input_path <;> simp
    cases hd : env.app_local_data_dir with
    | none => simp [generate_video_proxy, h1', hd] at h
    | some d =>
      cases hc : env.create_dir_all (d ++ "/video_previews") with
      | error e => simp [generate_video_proxy, h1', hd, hc] at h
      | ok u =>
        cases u
        cases hmd : fs.metadata input_path with
        | error e => simp [generate_video_proxy, h1', hd, hc, hmd] at h
        | ok md =>
          cases hm : md.modified with
          | error e => simp [generate_video_proxy, h1', hd, hc, hmd, hm] at h
          | ok m =>
            by_cases hneg : m < 0
            · simp [generate_video_proxy, h1', hd, hc, hmd, hm, hneg] at h
            · have hnn : 0 ≤ m := by omega
              rw [generate_video_proxy_reached env input_path d fs md m
                h1' hd hc hmd hm hnn] at h
              obtain ⟨hp, hpe, hsc⟩ :=
                proxyCheckAndBuild_ok_inv env input_path _ _ fs p fs' effs h
              refine ⟨d, md, m, rfl, hc, h1', rfl, hm, hnn, hp, ?_, hsc⟩
              rw [hp]; exact hpe

/-! ## Claim theorems C6-C8, C10 -/

/-- C6: when a file already exists at the derived cache path the Proxy
Generator returns that path at once, spawning nothing (first conjunct); and
after any successful call, a second call on the resulting filesystem with
the input still present and its metadata unchanged returns the same path
from cache, spawns nothing, and the two calls together spawn at most one
external process (second conjunct). -/
theorem generate_video_proxy_cache_idempotent (env : AppEnv)
    (input_path d : String) (fs fs₁ : FsState) (md : SysMetadata) (m : Int)
    (p : String) (effs₁ : List Effect) :
    (env.app_local_data_dir = some d →
      env.create_dir_all (d ++ "/video_previews") = .ok () →
      fs.pathExists input_path = true →
      fs.metadata input_path = .ok md → md.modified = .ok m → 0 ≤ m →
      fs.pathExists (d ++ "/video_previews" ++ "/"
        ++ proxyFilename (env.md5_hex input_path) m.toNat) = true →
      generate_video_proxy env input_path fs
        = (.ok (d ++ "/video_previews" ++ "/"
            ++ proxyFilename (env.md5_hex input_path) m.toNat), fs,
           [.createDirAll (d ++ "/video_previews"), .readMetadata input_path]))
  ∧ (generate_video_proxy env input_path fs = (.ok p, fs₁, effs₁) →
      fs₁.pathExists input_path = true →
      fs₁.metadata input_path = fs.metadata input_path →
      (generate_video_proxy env input_path fs₁).1 = .ok p
      ∧ (generate_video_proxy env input_path fs₁).2.1 = fs₁
      ∧ spawnCount (generate_video_proxy env input_path fs₁).2.2 = 0
      ∧ spawnCount effs₁ ≤ 1) := by
  constructor
  · intro hd hc h1 hmd hm hnn hhit
    rw [generate_video_proxy_reached env input_path d fs md m h1 hd hc hmd hm hnn]
    exact proxyCheckAndBuild_hit env input_path _ _ fs hhit
  · intro h hin hmeta
    obtain ⟨d₀, md₀, m₀, hd₀, hc₀, _, hmd₀, hm₀, hnn₀, hp₀, hpe₀, hsc₀⟩ :=
      generate_video_proxy_ok_inv env input_path fs p fs₁ effs₁ h
    have hmd₁ : fs₁.metadata input_path = .ok md₀ := by rw [hmeta]; exact hmd₀
    have hhit₁ : fs₁.pathExists (d₀ ++ "/video_previews" ++ "/"
        ++ proxyFilename (env.md5_hex input_path) m₀.toNat) = true := by
      rw [← hp₀]; exact hpe₀
    have E : generate_video_proxy env input_path fs₁
        = (.ok (d₀ ++ "/video_previews" ++ "/"
            ++ proxyFilename (env.md5_hex input_path) m₀.toNat), fs₁,
           [.createDirAll (d₀ ++ "/video_previews"), .readMetadata input_path]) := by
      rw [generate_video_proxy_reached env input_path d₀ fs₁ md₀ m₀
        hin hd₀ hc₀ hmd₁ hm₀ hnn₀]
      exact proxyCheckAndBuild_hit env input_path _ _ fs₁ hhit₁
    refine ⟨?_, ?_, ?_, hsc₀⟩
    · rw [E, hp₀]
    · rw [E]
    · rw [E, spawnCount_hit_effects]

/-- C6 witness: a filesystem already holding the derived cache file; the
first call is a cache hit, so the second call is one too and the two calls
spawn no process at all. -/
theorem generate_video_proxy_cache_idempotent_witness :
    (envW.app_local_data_dir = some "app"
      ∧ envW.create_dir_all ("app" ++ "/video_previews") = .ok ()
      ∧ fsHit.pathExists "in.mp4" = true
      ∧ fsHit.metadata "in.mp4" = .ok ⟨.ok 5⟩
      ∧ SysMetadata.modified ⟨.ok 5⟩ = .ok 5
      ∧ (0 : Int) ≤ 5
      ∧ fsHit.pathExists ("app" ++ "/video_previews" ++ "/"
          ++ proxyFilename (envW.md5_hex "in.mp4") (Int.toNat 5)) = true
      ∧ generate_video_proxy envW "in.mp4" fsHit
          = (.ok ("app" ++ "/video_previews" ++ "/"
              ++ proxyFilename (envW.md5_hex "in.mp4") (Int.toNat 5)), fsHit,
             [.createDirAll ("app" ++ "/video_previews"), .readMetadata "in.mp4"]))
    ∧ ((generate_video_proxy envW "in.mp4" fsHit).1
          = .ok ("app" ++ "/video_previews" ++ "/"
              ++ proxyFilename (envW.md5_hex "in.mp4") (Int.toNat 5))
      ∧ (generate_video_proxy envW "in.mp4" fsHit).2.1 = fsHit
      ∧ spawnCount (generate_video_proxy envW "in.mp4" fsHit).2.2 = 0
      ∧ spawnCount [.createDirAll ("app" ++ "/video_previews"),
          .readMetadata "in.mp4"] ≤ 1) :=
  ⟨⟨rfl, rfl, rfl, rfl, rfl, by decide, rfl,
    (generate_video_proxy_cache_idempotent envW "in.mp4" "app" fsHit fsHit
      ⟨.ok 5⟩ 5 "" []).1 rfl rfl rfl rfl rfl (by decide) rfl⟩,
   (generate_video_proxy_cache_idempotent envW "in.mp4" "app" fsHit fsHit
      ⟨.ok 5⟩ 5
      ("app" ++ "/video_previews" ++ "/"
        ++ proxyFilename (envW.md5_hex "in.mp4") (Int.toNat 5))
      [.createDirAll ("app" ++ "/video_previews"), .readMetadata "in.mp4"]).2
    ((generate_video_proxy_cache_idempotent envW "in.mp4" "app" fsHit fsHit
      ⟨.ok 5⟩ 5 "" []).1 rfl rfl rfl rfl rfl (by decide) rfl) rfl rfl⟩

/-- C7: the cache filename is derived from the hash of the input path
string (not the file contents — the environment's `md5_hex` is applied to
the path) joined with the modification time in whole seconds, in the form
`<hash>_<mtime-seconds>.mp4`; identical path and mtime derive the same
filename, and a different mtime derives a different filename. -/
theorem proxy_cache_key_filename (env : AppEnv) (input_path d p : String)
    (fs fs' : FsState) (effs : List Effect) (md : SysMetadata) (m : Int)
    (hsh : String) (s t : Nat) :
    (generate_video_proxy env input_path fs = (.ok p, fs', effs) →
      env.app_local_data_dir = some d →
      fs.metadata input_path = .ok md → md.modified = .ok m →
      p = d ++ "/video_previews" ++ "/"
        ++ (env.md5_hex input_path ++ "_" ++ toString m.toNat ++ ".mp4"))
  ∧ proxyFilename hsh s = hsh ++ "_" ++ toString s ++ ".mp4"
  ∧ (s = t → proxyFilename hsh s = proxyFilename hsh t)
  ∧ (s ≠ t → proxyFilename hsh s ≠ proxyFilename hsh t) := by
  refine ⟨?_, rfl, fun h => by rw [h],
    fun hne heq => hne (proxyFilename_mtime_inj hsh s t heq)⟩
  intro h hd hmd hm
  obtain ⟨d₀, md₀, m₀, hd₀, hc₀, h1₀, hmd₀, hm₀, hnn₀, hp₀, hpe₀, hsc₀⟩ :=
    generate_video_proxy_ok_inv env input_path fs p fs' effs h
  rw [hd₀] at hd
  injection hd with hdd
  rw [hmd₀] at hmd
  injection hmd with hmdd
  rw [← hmdd, hm₀] at hm
  injection hm with hmm
  subst hdd; subst hmm
  rw [hp₀]
  rfl

/-- C7 witness: a concrete cache hit whose returned path has the derived
form, plus mtimes 5 and 6 giving distinct filenames for the same hash. -/
theorem proxy_cache_key_filename_witness :
    (generate_video_proxy envW "in.mp4" fsHit
        = (.ok ("app" ++ "/video_previews" ++ "/"
            ++ proxyFilename (envW.md5_hex "in.mp4") (Int.toNat 5)), fsHit,
           [.createDirAll ("app" ++ "/video_previews"), .readMetadata "in.mp4"])
      ∧ envW.app_local_data_dir = some "app"
      ∧ fsHit.metadata "in.mp4" = .ok ⟨.ok 5⟩
      ∧ ("app" ++ "/video_previews" ++ "/"
            ++ proxyFilename (envW.md5_hex "in.mp4") (Int.toNat 5))
          = "app" ++ "/video_previews" ++ "/"
            ++ (envW.md5_hex "in.mp4" ++ "_" ++ toString (Int.toNat 5) ++ ".mp4"))
    ∧ proxyFilename "abcd" 5 = "abcd" ++ "_" ++ toString 5 ++ ".mp4"
    ∧ proxyFilename "abcd" 5 ≠ proxyFilename "abcd" 6 :=
  ⟨⟨rfl, rfl, rfl,
    (proxy_cache_key_filename envW "in.mp4" "app"
      ("app" ++ "/video_previews" ++ "/"
        ++ proxyFilename (envW.md5_hex "in.mp4") (Int.toNat 5))
      fsHit fsHit
      [.createDirAll ("app" ++ "/video_previews"), .readMetadata "in.mp4"]
      ⟨.ok 5⟩ 5 "abcd" 5 6).1 rfl rfl rfl rfl⟩,
   (proxy_cache_key_filename envW "in.mp4" "app"
      ("app" ++ "/video_previews" ++ "/"
        ++ proxyFilename (envW.md5_hex "in.mp4") (Int.toNat 5))
      fsHit fsHit
      [.createDirAll ("app" ++ "/video_previews"), .readMetadata "in.mp4"]
      ⟨.ok 5⟩ 5 "abcd" 5 6).2.1,
   (proxy_cache_key_filename envW "in.mp4" "app"
      ("app" ++ "/video_previews" ++ "/"
        ++ proxyFilename (envW.md5_hex "in.mp4") (Int.toNat 5))
      fsHit fsHit
      [.createDirAll ("app" ++ "/video_previews"), .readMetadata "in.mp4"]
      ⟨.ok 5⟩ 5 "abcd" 5 6).2.2.2 (by decide)⟩

/-- C8: when the external tool reports success (`status.success()`) but no
file exists at the derived output path afterwards, the Proxy Generator
returns the output-missing error (with the post-build filesystem and a
single spawn in the trace) instead of the nonexistent path. -/
theorem generate_video_proxy_output_missing (env : AppEnv) (input_path d : String)
    (fs fs' : FsState) (md : SysMetadata) (m : Int) (out : ProcOutput)
    (h1 : fs.pathExists input_path = true)
    (hd : env.app_local_data_dir = some d)
    (hc : env.create_dir_all (d ++ "/video_previews") = .ok ())
    (hmd : fs.metadata input_path = .ok md)
    (hm : md.modified = .ok m)
    (hnn : 0 ≤ m)
    (hmiss : fs.pathExists (d ++ "/video_previews" ++ "/"
        ++ proxyFilename (env.md5_hex input_path) m.toNat) = false)
    (hrun : env.run_ffmpeg (proxyFfmpegArgs input_path
        (d ++ "/video_previews" ++ "/"
          ++ proxyFilename (env.md5_hex input_path) m.toNat)) fs = (.ok out, fs'))
    (hsucc : out.success = true)
    (hpost : fs'.pathExists (d ++ "/video_previews" ++ "/"
        ++ proxyFilename (env.md5_hex input_path) m.toNat) = false) :
    generate_video_proxy env input_path fs
      = (.err "FFmpeg reported success but output file not found", fs',
         [.createDirAll (d ++ "/video_previews"), .readMetadata input_path,
          .spawn "ffmpeg" (proxyFfmpegArgs input_path
            (d ++ "/video_previews" ++ "/"
              ++ proxyFilename (env.md5_hex input_path) m.toNat))]) := by
  have hmiss' : ¬ fs.pathExists (d ++ "/video_previews" ++ "/"
      ++ proxyFilename (env.md5_hex input_path) m.toNat) = true := by
    simp [hmiss]
  have hsucc' : ¬ out.success = false := by simp [hsucc]
  rw [generate_video_proxy_reached env input_path d fs md m h1 hd hc hmd hm hnn]
  unfold proxyCheckAndBuild
  rw [if_neg hmiss']
  simp only [hrun]
  rw [if_neg hsucc', if_pos hpost]

/-- C8 witness: an external tool that reports success without writing any
file. -/
theorem generate_video_proxy_output_missing_witness :
    fsIn.pathExists "in.mp4" = true
    ∧ envNoOutput.run_ffmpeg (proxyFfmpegArgs "in.mp4"
        ("app" ++ "/video_previews" ++ "/"
          ++ proxyFilename (envNoOutput.md5_hex "in.mp4") (Int.toNat 5))) fsIn
        = (.ok ⟨true, some 0, "", ""⟩, fsIn)
    ∧ fsIn.pathExists ("app" ++ "/video_previews" ++ "/"
        ++ proxyFilename (envNoOutput.md5_hex "in.mp4") (Int.toNat 5)) = false
    ∧ generate_video_proxy envNoOutput "in.mp4" fsIn
        = (.err "FFmpeg reported success but output file not found", fsIn,
           [.createDirAll ("app" ++ "/video_previews"), .readMetadata "in.mp4",
            .spawn "ffmpeg" (proxyFfmpegArgs "in.mp4"
              ("app" ++ "/video_previews" ++ "/"
                ++ proxyFilename (envNoOutput.md5_hex "in.mp4") (Int.toNat 5)))]) :=
  ⟨rfl, rfl, by decide,
   generate_video_proxy_output_missing envNoOutput "in.mp4" "app" fsIn fsIn
     ⟨.ok 5⟩ 5 ⟨true, some 0, "", ""⟩ rfl rfl rfl rfl rfl (by decide)
     (by decide) rfl rfl (by decide)⟩

/-- C10: the Proxy Generator is not total — when the input's modification
time precedes the Unix epoch, the unchecked `unwrap` on `duration_since`
panics instead of returning an error; metadata-read and `modified()`
failures are returned as error strings; and under the precondition that the
modification time is at or after the epoch the panic branch is
unreachable. -/
theorem generate_video_proxy_epoch_panic (env : AppEnv) (input_path d e : String)
    (fs : FsState) (md : SysMetadata) (m : Int) :
    (fs.pathExists input_path = true → env.app_local_data_dir = some d →
      env.create_dir_all (d ++ "/video_previews") = .ok () →
      fs.metadata input_path = .ok md → md.modified = .ok m → m < 0 →
      (generate_video_proxy env input_path fs).1 = .panicked)
  ∧ (fs.pathExists input_path = true → env.app_local_data_dir = some d →
      env.create_dir_all (d ++ "/video_previews") = .ok () →
      fs.metadata input_path = .error e →
      (generate_video_proxy env input_path fs).1
        = .err ("Cannot read file metadata: " ++ e))
  ∧ (fs.pathExists input_path = true → env.app_local_data_dir = some d →
      env.create_dir_all (d ++ "/video_previews") = .ok () →
      fs.metadata input_path = .ok md → md.modified = .error e →
      (generate_video_proxy env input_path fs).1 = .err e)
  ∧ (fs.metadata input_path = .ok md → md.modified = .ok m → 0 ≤ m →
      (generate_video_proxy env input_path fs).1 ≠ .panicked) := by
  refine ⟨?_, ?_, ?_, ?_⟩
  · intro h1 hd hc hmd hm hneg
    simp [generate_video_proxy, h1, hd, hc, hmd, hm, hneg]
  · intro h1 hd hc hmd
    simp [generate_video_proxy, h1, hd, hc, hmd]
  · intro h1 hd hc hmd hm
    simp [generate_video_proxy, h1, hd, hc, hmd, hm]
  · intro hmd hm hnn
    by_cases h1 : fs.pathExists input_path = false
    · simp [generate_video_proxy, h1]
    · have h1' : fs.pathExists input_path = true := by
        revert h1; cases fs.pathExists input_path <;> simp
      cases hd : env.app_local_data_dir with
      | none => simp [generate_video_proxy, h1', hd]
      | some d' =>
        cases hc : env.create_dir_all (d' ++ "/video_previews") with
        | error e' => simp [generate_video_proxy, h1', hd, hc]
        | ok u =>
          cases u
          rw [generate_video_proxy_reached env input_path d' fs md m
            h1' hd hc hmd hm hnn]
          exact proxyCheckAndBuild_fst_ne_panicked env input_path _ _ fs

/-- C10 witness: an mtime one second before the epoch panics; a metadata
read failure and a `modified()` failure return error strings; an mtime of
5 s does not panic. -/
theorem generate_video_proxy_epoch_panic_witness :
    (fsNegMtime.metadata "in.mp4" = .ok ⟨.ok (-1)⟩ ∧ ((-1 : Int) < 0)
      ∧ (generate_video_proxy envW "in.mp4" fsNegMtime).1 = .panicked)
  ∧ (fsMetaErr.metadata "x.mp4" = .error "io error"
      ∧ (generate_video_proxy envW "x.mp4" fsMetaErr).1
          = .err ("Cannot read file metadata: " ++ "io error"))
  ∧ (fsModErr.metadata "in.mp4" = .ok ⟨.error "clock error"⟩
      ∧ (generate_video_proxy envW "in.mp4" fsModErr).1 = .err "clock error")
  ∧ (fsHit.metadata "in.mp4" = .ok ⟨.ok 5⟩ ∧ ((0 : Int) ≤ 5)
      ∧ (generate_video_proxy envW "in.mp4" fsHit).1 ≠ .panicked) :=
  ⟨⟨rfl, by decide,
    (generate_video_proxy_epoch_panic envW "in.mp4" "app" "x" fsNegMtime
      ⟨.ok (-1)⟩ (-1)).1 rfl rfl rfl rfl rfl (by decide)⟩,
   ⟨rfl,
    (generate_video_proxy_epoch_panic envW "x.mp4" "app" "io error" fsMetaErr
      ⟨.ok 0⟩ 0).2.1 rfl rfl rfl rfl⟩,
   ⟨rfl,
    (generate_video_proxy_epoch_panic envW "in.mp4" "app" "clock error" fsModErr
      ⟨.error "clock error"⟩ 0).2.2.1 rfl rfl rfl rfl rfl⟩,
   ⟨rfl, by decide,
    (generate_video_proxy_epoch_panic envW "in.mp4" "app" "x" fsHit
      ⟨.ok 5⟩ 5).2.2.2 rfl rfl (by decide)⟩⟩

end VideoCropper
